import Mathlib

/-
Shallow embedding of the `git-commit-aider` MCP server (src/index.ts).

The server exposes one tool, `commit_staged`.  Its request handler
(`server.setRequestHandler(CallToolRequestSchema, ...)`):
  1. rejects unknown tool names (McpError MethodNotFound, thrown);
  2. validates the arguments with `isValidCommitArgs` (McpError InvalidParams,
     thrown);
  3. resolves the committer name from `GIT_COMMITTER_NAME` or, when that env
     variable is absent or empty, from `git config user.name` (trimmed; an
     empty trimmed value or a failed invocation becomes an McpError
     InternalError thrown inside the outer try);
  4. resolves the committer email symmetrically from `GIT_COMMITTER_EMAIL`
     or `git config user.email`;
  5. builds the author string and runs
     `git commit -m <message> --author=<authorString>` in the working
     directory given by the optional `cwd` argument;
  6. classifies the result: success response (no `isError` field), a
     "skipped" response (`isError: false`) when the extracted failure text
     contains one of two fixed git phrases, and a failure response
     (`isError: true`) otherwise; McpErrors thrown from identity resolution
     are caught and returned as `isError: true` responses.

External process invocations (execa) and the environment are modelled by an
explicit `World`; the handler is a pure function returning its output
together with the trace of external invocations it performed.
-/

namespace GitCommitAider

/-- Resolved value of a successful `execa` invocation. -/
structure ExecaResult where
  stdout : String
  stderr : String
deriving DecidableEq, Repr

/-- Error object of a failed `execa` invocation (or a plain `Error`);
each field may be absent (`none` models JavaScript `undefined`). -/
structure ExecaError where
  stderr : Option String
  stdout : Option String
  shortMessage : Option String
  message : Option String
deriving DecidableEq, Repr

/-- JavaScript truthiness of a string-or-undefined value: truthy exactly
when present and non-empty. -/
def jsTruthy : Option String → Bool
  | some s => s ≠ ""
  | none => false

/-- JavaScript `a || b` for a string-or-undefined `a` and string `b`:
returns `a` when truthy, else `b`. -/
def jsOr : Option String → String → String
  | some s, b => if s = "" then b else s
  | none, b => b

/-- Embedding of the source's diagnostic extraction
`error?.stderr || error?.stdout || error?.shortMessage || error?.message || fallback`. -/
def errObjMessage (e : ExecaError) (fallback : String) : String :=
  jsOr e.stderr (jsOr e.stdout (jsOr e.shortMessage (jsOr e.message fallback)))

/-- Embedding of JavaScript `s.trim()`: surrounding whitespace removed from
both ends. -/
def jsTrim (s : String) : String :=
  ⟨((s.toList.dropWhile Char.isWhitespace).reverse.dropWhile Char.isWhitespace).reverse⟩

/-- Embedding of JavaScript `s.includes(pat)`: `pat` occurs as a contiguous
substring of `s`. -/
def includesSub (s pat : String) : Bool :=
  decide (pat.toList <:+: s.toList)

/-- One external process invocation: command, argument list, and the
working-directory option passed to `execa`. -/
structure Call where
  cmd : String
  args : List String
  cwd : Option String
deriving DecidableEq, Repr

/-- Ambient state observed by the handler: the two environment variables and
the (deterministic) behaviour of external `git` invocations, as a function of
argument list and working directory. -/
structure World where
  envName : Option String
  envEmail : Option String
  exec : List String → Option String → Except ExecaError ExecaResult

/-- Embedding of the committer-name resolution block: if
`process.env.GIT_COMMITTER_NAME` is truthy it is used directly; otherwise
`git config user.name` is invoked, its stdout trimmed, an empty trimmed
value raising `Error("Git user.name is empty.")`; both inner failures are
converted to the McpError InternalError message.  Returns the resolved name
or the McpError message, together with the external calls performed. -/
def resolveName (w : World) (ecwd : Option String) :
    Except String String × List Call :=
  if jsTruthy w.envName then
    (Except.ok (w.envName.getD ""), [])
  else
    let call : Call := ⟨"git", ["config", "user.name"], ecwd⟩
    match w.exec ["config", "user.name"] ecwd with
    | Except.ok res =>
      let committerName := jsTrim res.stdout
      if committerName = "" then
        (Except.error ("Failed to get git user.name: " ++ "Git user.name is empty." ++
          ". Please ensure git user.name is configured or set the GIT_COMMITTER_NAME environment variable."),
         [call])
      else
        (Except.ok committerName, [call])
    | Except.error configError =>
      let configErrorMessage :=
        errObjMessage configError "Unknown error getting git config user.name."
      (Except.error ("Failed to get git user.name: " ++ configErrorMessage ++
        ". Please ensure git user.name is configured or set the GIT_COMMITTER_NAME environment variable."),
       [call])

/-- Embedding of the committer-email resolution block, symmetric to
`resolveName` with `GIT_COMMITTER_EMAIL` and `git config user.email`. -/
def resolveEmail (w : World) (ecwd : Option String) :
    Except String String × List Call :=
  if jsTruthy w.envEmail then
    (Except.ok (w.envEmail.getD ""), [])
  else
    let call : Call := ⟨"git", ["config", "user.email"], ecwd⟩
    match w.exec ["config", "user.email"] ecwd with
    | Except.ok res =>
      let committerEmail := jsTrim res.stdout
      if committerEmail = "" then
        (Except.error ("Failed to get git user.email: " ++ "Git user.email is empty." ++
          ". Please ensure git user.email is configured or set the GIT_COMMITTER_EMAIL environment variable."),
         [call])
      else
        (Except.ok committerEmail, [call])
    | Except.error configError =>
      let configErrorMessage :=
        errObjMessage configError "Unknown error getting git config user.email."
      (Except.error ("Failed to get git user.email: " ++ configErrorMessage ++
        ". Please ensure git user.email is configured or set the GIT_COMMITTER_EMAIL environment variable."),
       [call])

/-- Protocol error codes used by the handler when it throws an McpError
before entering its try block. -/
inductive ErrorCode
  | MethodNotFound
  | InvalidParams
deriving DecidableEq, Repr

/-- Response returned to the caller: the single text content item and the
`isError` field, `none` when the source object omits the field. -/
structure Response where
  text : String
  isError : Option Bool
deriving DecidableEq, Repr

/-- Handler output: either a thrown protocol-level McpError (unknown tool or
invalid arguments) or a structured response. -/
inductive HandlerOutput
  | thrown (code : ErrorCode) (msg : String)
  | ok (r : Response)
deriving DecidableEq, Repr

/-- Possible JSON-ish values of a field of the raw `arguments` object. -/
inductive ArgVal
  | vstr (s : String)
  | vnum (n : Int)
  | vbool (b : Bool)
  | vnull
  | vobj
  | varr
deriving DecidableEq, Repr

/-- Raw `arguments` object with the two fields the handler looks at; each
may be absent. -/
structure RawArgs where
  message : Option ArgVal
  cwd : Option ArgVal
deriving DecidableEq, Repr

/-- Whether an argument value is a JavaScript string. -/
def isStringVal : ArgVal → Bool
  | ArgVal.vstr _ => true
  | _ => false

/-- Embedding of `isValidCommitArgs`: the arguments are an object whose
`message` field is a string and whose `cwd` field is absent or a string.
`none` models an absent or non-object `arguments` value. -/
def isValidCommitArgs : Option RawArgs → Bool
  | none => false
  | some a =>
    (match a.message with
     | some v => isStringVal v
     | none => false) &&
    (match a.cwd with
     | none => true
     | some v => isStringVal v)

/-- Extraction of the `message` string after validation has passed. -/
def argMessage (a : RawArgs) : String :=
  match a.message with
  | some (ArgVal.vstr s) => s
  | _ => ""

/-- Extraction of the optional `cwd` string after validation has passed. -/
def argCwd (a : RawArgs) : Option String :=
  match a.cwd with
  | some (ArgVal.vstr s) => some s
  | _ => none

/-- Embedding of `const executionOptions = cwd ? { cwd } : {}`: an empty
`cwd` string is falsy, so `execa` then runs in the process working
directory. -/
def effectiveCwd (cwd : Option String) : Option String :=
  if jsTruthy cwd then cwd else none

/-- Validation-failure message thrown with InvalidParams. -/
def invalidArgsMsg : String :=
  "Invalid arguments for commit_staged. Requires \"message\" (string) and optional \"cwd\" (string)."

/-- Embedding of the CallToolRequestSchema handler.  Returns the handler
output together with the trace of external invocations, in order.  McpError
messages are carried as passed to the constructor (the SDK framing prefix is
protocol plumbing outside this core). -/
def handleCallTool (w : World) (toolName : String) (args : Option RawArgs) :
    HandlerOutput × List Call :=
  if toolName ≠ "commit_staged" then
    (HandlerOutput.thrown ErrorCode.MethodNotFound ("Unknown tool: " ++ toolName), [])
  else if ¬ isValidCommitArgs args then
    (HandlerOutput.thrown ErrorCode.InvalidParams invalidArgsMsg, [])
  else
    let a := args.getD ⟨none, none⟩
    let message := argMessage a
    let ecwd := effectiveCwd (argCwd a)
    match (resolveName w ecwd).1 with
    | Except.error m =>
      (HandlerOutput.ok ⟨m, some true⟩, (resolveName w ecwd).2)
    | Except.ok committerName =>
      match (resolveEmail w ecwd).1 with
      | Except.error m =>
        (HandlerOutput.ok ⟨m, some true⟩,
         (resolveName w ecwd).2 ++ (resolveEmail w ecwd).2)
      | Except.ok committerEmail =>
        let aiderName := committerName ++ " (aider)"
        let authorString := aiderName ++ " <" ++ committerEmail ++ ">"
        let commitArgs := ["commit", "-m", message, "--author=" ++ authorString]
        let calls := (resolveName w ecwd).2 ++ (resolveEmail w ecwd).2 ++
          [⟨"git", commitArgs, ecwd⟩]
        match w.exec commitArgs ecwd with
        | Except.ok res =>
          (HandlerOutput.ok ⟨"Commit successful:\n" ++ res.stdout ++ "\n" ++
            (if res.stderr ≠ "" then "Stderr:\n" ++ res.stderr else ""), none⟩, calls)
        | Except.error err =>
          let errorMessage := errObjMessage err "Unknown error during git commit."
          if includesSub errorMessage "nothing to commit, working tree clean" ||
             includesSub errorMessage "no changes added to commit" then
            (HandlerOutput.ok ⟨"Git commit skipped: " ++ errorMessage, some false⟩, calls)
          else
            (HandlerOutput.ok ⟨"Git commit failed: " ++ errorMessage, some true⟩, calls)

/-- Convenience constructor for a valid `commit_staged` argument object. -/
def mkArgs (msg : String) (cwd : Option String) : Option RawArgs :=
  some ⟨some (ArgVal.vstr msg), cwd.map ArgVal.vstr⟩

/-- Identity resolution as sequenced by the handler: name first, then
email; the first failure wins. -/
def resolveIdentity (w : World) (ecwd : Option String) :
    Except String (String × String) :=
  match (resolveName w ecwd).1 with
  | Except.error m => Except.error m
  | Except.ok nm =>
    match (resolveEmail w ecwd).1 with
    | Except.error m => Except.error m
    | Except.ok em => Except.ok (nm, em)

/-- The `isError` field of a returned response, when the output is a
response at all. -/
def outIsError : HandlerOutput → Option (Option Bool)
  | HandlerOutput.ok r => some r.isError
  | HandlerOutput.thrown _ _ => none

/-- Whether a recorded invocation is a `git commit` invocation. -/
def isCommitCall (cl : Call) : Bool :=
  cl.args.head? = some "commit"

/-- A query result is bad for identity resolution when the invocation
failed or its stdout is empty after trimming. -/
def queryBad : Except ExecaError ExecaResult → Bool
  | Except.error _ => true
  | Except.ok res => jsTrim res.stdout = ""

/-- Witness for C1 at a concrete world whose commit invocation fails with
the nothing-to-commit phrase on stderr. -/
def wC1 : World :=
  ⟨some "Ada", some "ada@x.io", fun _ _ =>
    Except.error ⟨some "On branch main\nnothing to commit, working tree clean",
      none, none, some "Command failed with exit code 1"⟩⟩

/-- Witness world for C2: identities from the environment, commit succeeds. -/
def wC2 : World :=
  ⟨some "Ada", some "ada@x.io", fun _ _ => Except.ok ⟨"1 file changed", ""⟩⟩

/-- Counterexample world for C3: no environment overrides, the name config
query fails, while the email config query would succeed if it were made. -/
def wC3 : World :=
  ⟨none, none, fun args _ =>
    if args = ["config", "user.email"] then Except.ok ⟨"ada@x.io\n", ""⟩
    else Except.error ⟨some "fatal: unable to read config", none, none, some "Command failed"⟩⟩

/-- Counterexample world for C4: identities from the environment and a
succeeding commit invocation. -/
def wC4 : World :=
  ⟨some "Ada", some "ada@x.io", fun _ _ => Except.ok ⟨"done", ""⟩⟩

/-- Witness world for C5: name overridden, no email override, failing email
config query. -/
def wC5 : World :=
  ⟨some "Ada", none, fun _ _ =>
    Except.error ⟨some "fatal: no email configured", none, none, none⟩⟩

/-- Witness world for C6: both overrides set. -/
def wC6 : World :=
  ⟨some "Eve", some "eve@x.io", fun _ _ => Except.ok ⟨"ok", ""⟩⟩

/-- Whether the raw arguments lack a message field of string type: the
arguments value is absent or not an object, or its message field is absent
or not a string. -/
def messageAbsentOrNonString : Option RawArgs → Bool
  | none => true
  | some a =>
    match a.message with
    | none => true
    | some v => ! isStringVal v

/-- Counterexample world for C7: both overrides set, commit succeeds. -/
def wC7 : World :=
  ⟨some "Bob", some "bob@x.io", fun _ _ => Except.ok ⟨"committed", ""⟩⟩

/-- An optional string viewed as present only when non-empty. -/
def nonEmptyField : Option String → Option String
  | some s => if s = "" then none else some s
  | none => none

/-- Spec-side statement of the diagnostic-extraction priority for comparison
with the code's extraction: captured stderr if non-empty, else captured
stdout if non-empty, else the short human-readable summary, else the error
message, else a generic fallback message. -/
def specDiagnostic (e : ExecaError) : String :=
  match nonEmptyField e.stderr with
  | some s => s
  | none =>
    match nonEmptyField e.stdout with
    | some s => s
    | none =>
      match nonEmptyField e.shortMessage with
      | some s => s
      | none =>
        match nonEmptyField e.message with
        | some s => s
        | none => "Unknown error during git commit."

/-- Witness world for C8: commit fails with absent stderr, empty stdout and
a short summary, so the summary is the extracted diagnostic. -/
def wC8 : World :=
  ⟨some "Ada", some "ada@x.io", fun _ _ =>
    Except.error ⟨none, some "", some "Command failed with exit code 128",
      some "Command failed with exit code 128: git commit"⟩⟩

/-- Witness worlds for C9: identical environment and config behaviour,
different commit behaviour. -/
def wC9a : World :=
  ⟨none, none, fun args _ =>
    if args = ["config", "user.name"] then Except.ok ⟨"Ada\n", ""⟩
    else if args = ["config", "user.email"] then Except.ok ⟨"ada@x.io\n", ""⟩
    else Except.ok ⟨"1 file changed", ""⟩⟩

/-- Second witness world for C9, differing only on commit behaviour. -/
def wC9b : World :=
  ⟨none, none, fun args _ =>
    if args = ["config", "user.name"] then Except.ok ⟨"Ada\n", ""⟩
    else if args = ["config", "user.email"] then Except.ok ⟨"ada@x.io\n", ""⟩
    else Except.error ⟨some "index.lock exists", none, none, none⟩⟩

/-- Witness world for C10: a whitespace-laden name override and an email
config value with surrounding whitespace. -/
def wC10 : World :=
  ⟨some "  Ada  ", none, fun args _ =>
    if args = ["config", "user.email"] then Except.ok ⟨"\tada@x.io \n", ""⟩
    else Except.ok ⟨"", ""⟩⟩

/-! Lemmas and claim theorems. -/

/-- Arguments built by `mkArgs` pass validation. -/
theorem isValidCommitArgs_mkArgs (msg : String) (c : Option String) :
    isValidCommitArgs (mkArgs msg c) = true := by
  cases c <;> rfl

/-- Trace of name resolution: empty on the override path, exactly the one
config query otherwise. -/
theorem resolveName_snd (w : World) (ecwd : Option String) :
    (resolveName w ecwd).2 =
      if jsTruthy w.envName then [] else [⟨"git", ["config", "user.name"], ecwd⟩] := by
  unfold resolveName
  split
  · rfl
  · cases h : w.exec ["config", "user.name"] ecwd <;> simp [h] <;> split <;> rfl

/-- Trace of email resolution: empty on the override path, exactly the one
config query otherwise. -/
theorem resolveEmail_snd (w : World) (ecwd : Option String) :
    (resolveEmail w ecwd).2 =
      if jsTruthy w.envEmail then [] else [⟨"git", ["config", "user.email"], ecwd⟩] := by
  unfold resolveEmail
  split
  · rfl
  · cases h : w.exec ["config", "user.email"] ecwd <;> simp [h] <;> split <;> rfl

/-- Handler unfolding lemma: on a valid request, name-resolution failure
returns that McpError message with `isError: true` and performs only the
name-resolution calls. -/
theorem handle_name_error (w : World) (msg : String) (c : Option String) (m : String)
    (h : (resolveName w (effectiveCwd c)).1 = Except.error m) :
    handleCallTool w "commit_staged" (mkArgs msg c) =
      (HandlerOutput.ok ⟨m, some true⟩, (resolveName w (effectiveCwd c)).2) := by
  cases c <;>
    simp only [handleCallTool, mkArgs, isValidCommitArgs, isStringVal, argMessage, argCwd,
      Option.map, Option.getD, Bool.and_true, Bool.and_self, ne_eq, not_true_eq_false,
      not_false_eq_true, if_false, reduceCtorEq, ite_false, ite_true] <;>
    simp only [h] <;> rfl

/-- Handler unfolding lemma: on a valid request, if name resolution succeeds
and email resolution fails, the handler returns that McpError message with
`isError: true` and performs the name calls followed by the email calls. -/
theorem handle_email_error (w : World) (msg : String) (c : Option String)
    (nm m : String)
    (hn : (resolveName w (effectiveCwd c)).1 = Except.ok nm)
    (he : (resolveEmail w (effectiveCwd c)).1 = Except.error m) :
    handleCallTool w "commit_staged" (mkArgs msg c) =
      (HandlerOutput.ok ⟨m, some true⟩,
       (resolveName w (effectiveCwd c)).2 ++ (resolveEmail w (effectiveCwd c)).2) := by
  cases c <;>
    simp only [handleCallTool, mkArgs, isValidCommitArgs, isStringVal, argMessage, argCwd,
      Option.map, Option.getD, Bool.and_true, Bool.and_self, ne_eq, not_true_eq_false,
      not_false_eq_true, if_false, reduceCtorEq, ite_false, ite_true] <;>
    simp only [hn, he] <;> rfl

/-- Association of the author-string concatenation: the handler builds it in
two steps, the claim states it as one literal. -/
theorem author_string_assoc (nm em : String) :
    nm ++ " (aider)" ++ " <" ++ em ++ ">" = nm ++ " (aider) <" ++ em ++ ">" := by
  have h : (" (aider)" : String) ++ " <" = " (aider) <" := rfl
  rw [String.append_assoc nm " (aider)" " <", h]

/-- Handler unfolding lemma: on a valid request with both fields resolved,
the handler invokes the commit once and classifies its result; the trace is
the resolution calls followed by exactly that commit invocation. -/
theorem handle_commit (w : World) (msg : String) (c : Option String)
    (nm em : String)
    (hn : (resolveName w (effectiveCwd c)).1 = Except.ok nm)
    (he : (resolveEmail w (effectiveCwd c)).1 = Except.ok em) :
    handleCallTool w "commit_staged" (mkArgs msg c) =
      (let calls := (resolveName w (effectiveCwd c)).2 ++ (resolveEmail w (effectiveCwd c)).2 ++
         [⟨"git", ["commit", "-m", msg, "--author=" ++ (nm ++ " (aider)" ++ " <" ++ em ++ ">")],
           effectiveCwd c⟩]
       match w.exec ["commit", "-m", msg, "--author=" ++ (nm ++ " (aider)" ++ " <" ++ em ++ ">")]
          (effectiveCwd c) with
       | Except.ok res =>
         (HandlerOutput.ok ⟨"Commit successful:\n" ++ res.stdout ++ "\n" ++
           (if res.stderr ≠ "" then "Stderr:\n" ++ res.stderr else ""), none⟩, calls)
       | Except.error err =>
         let errorMessage := errObjMessage err "Unknown error during git commit."
         if includesSub errorMessage "nothing to commit, working tree clean" ||
            includesSub errorMessage "no changes added to commit" then
           (HandlerOutput.ok ⟨"Git commit skipped: " ++ errorMessage, some false⟩, calls)
         else
           (HandlerOutput.ok ⟨"Git commit failed: " ++ errorMessage, some true⟩, calls)) := by
  cases c <;>
    simp only [handleCallTool, mkArgs, isValidCommitArgs, isStringVal, argMessage, argCwd,
      Option.map, Option.getD, Bool.and_true, Bool.and_self, ne_eq, not_true_eq_false,
      not_false_eq_true, if_false, reduceCtorEq, ite_false, ite_true] <;>
    simp only [hn, he]

/-- Name resolution reads only the name environment variable and the
result of the name config query. -/
theorem resolveName_congr (w₁ w₂ : World) (ecwd : Option String)
    (hn : w₁.envName = w₂.envName)
    (hq : w₁.exec ["config", "user.name"] ecwd = w₂.exec ["config", "user.name"] ecwd) :
    resolveName w₁ ecwd = resolveName w₂ ecwd := by
  unfold resolveName
  rw [hn, hq]

/-- Email resolution reads only the email environment variable and the
result of the email config query. -/
theorem resolveEmail_congr (w₁ w₂ : World) (ecwd : Option String)
    (hn : w₁.envEmail = w₂.envEmail)
    (hq : w₁.exec ["config", "user.email"] ecwd = w₂.exec ["config", "user.email"] ecwd) :
    resolveEmail w₁ ecwd = resolveEmail w₂ ecwd := by
  unfold resolveEmail
  rw [hn, hq]

/-- C1: for every request where identity resolution succeeds and the external
commit invocation fails, if the extracted failure text contains the substring
"nothing to commit, working tree clean" or the substring "no changes added to
commit", the outcome is the Skipped response with isError false; every other
commit-invocation failure yields the Failed response with isError true. -/
theorem C1_commit_failure_classification (w : World) (msg : String) (c : Option String)
    (nm em : String) (e : ExecaError)
    (hn : (resolveName w (effectiveCwd c)).1 = Except.ok nm)
    (he : (resolveEmail w (effectiveCwd c)).1 = Except.ok em)
    (hc : w.exec ["commit", "-m", msg, "--author=" ++ (nm ++ " (aider)" ++ " <" ++ em ++ ">")]
        (effectiveCwd c) = Except.error e) :
    ((includesSub (errObjMessage e "Unknown error during git commit.")
          "nothing to commit, working tree clean" ||
        includesSub (errObjMessage e "Unknown error during git commit.")
          "no changes added to commit") = true →
      (handleCallTool w "commit_staged" (mkArgs msg c)).1 =
        HandlerOutput.ok ⟨"Git commit skipped: " ++
          errObjMessage e "Unknown error during git commit.", some false⟩) ∧
    ((includesSub (errObjMessage e "Unknown error during git commit.")
          "nothing to commit, working tree clean" ||
        includesSub (errObjMessage e "Unknown error during git commit.")
          "no changes added to commit") = false →
      (handleCallTool w "commit_staged" (mkArgs msg c)).1 =
        HandlerOutput.ok ⟨"Git commit failed: " ++
          errObjMessage e "Unknown error during git commit.", some true⟩) := by
  refine ⟨fun hcond => ?_, fun hcond => ?_⟩ <;>
    rw [handle_commit w msg c nm em hn he] <;>
    simp only [hc, hcond] <;> rfl

/-- Witness theorem for C1. -/
theorem C1_witness :
    (handleCallTool wC1 "commit_staged" (mkArgs "msg" none)).1 =
      HandlerOutput.ok ⟨"Git commit skipped: On branch main\nnothing to commit, working tree clean",
        some false⟩ := by
  have h := (C1_commit_failure_classification wC1 "msg" none "Ada" "ada@x.io"
    ⟨some "On branch main\nnothing to commit, working tree clean",
      none, none, some "Command failed with exit code 1"⟩ rfl rfl rfl).1 (by rfl)
  exact h

/-- C2: for every request whose name resolves to nm and whose email resolves
to em, the handler invokes the external commit exactly once, with arguments
commit, -m, the message, and an author flag whose author string is exactly
nm ++ " (aider) <" ++ em ++ ">", in the resolved working directory. -/
theorem C2_author_string (w : World) (msg : String) (c : Option String) (nm em : String)
    (hn : (resolveName w (effectiveCwd c)).1 = Except.ok nm)
    (he : (resolveEmail w (effectiveCwd c)).1 = Except.ok em) :
    (handleCallTool w "commit_staged" (mkArgs msg c)).2 =
      (resolveName w (effectiveCwd c)).2 ++ (resolveEmail w (effectiveCwd c)).2 ++
        [⟨"git", ["commit", "-m", msg, "--author=" ++ (nm ++ " (aider) <" ++ em ++ ">")],
          effectiveCwd c⟩] := by
  rw [handle_commit w msg c nm em hn he, ← author_string_assoc]
  cases w.exec ["commit", "-m", msg, "--author=" ++ (nm ++ " (aider)" ++ " <" ++ em ++ ">")]
      (effectiveCwd c) with
  | ok res => rfl
  | error err =>
      by_cases hcond : (includesSub (errObjMessage err "Unknown error during git commit.")
          "nothing to commit, working tree clean" ||
        includesSub (errObjMessage err "Unknown error during git commit.")
          "no changes added to commit") = true
      · simp only [hcond]; rfl
      · simp only [Bool.not_eq_true] at hcond
        simp only [hcond]; rfl

/-- Witness theorem for C2. -/
theorem C2_witness :
    (handleCallTool wC2 "commit_staged" (mkArgs "fix bug" (some "/repo"))).2 =
      [⟨"git", ["commit", "-m", "fix bug", "--author=Ada (aider) <ada@x.io>"], some "/repo"⟩] := by
  rw [C2_author_string wC2 "fix bug" (some "/repo") "Ada" "ada@x.io" rfl rfl]
  rfl

/-- Handler trace decomposition: every recorded invocation comes from name
resolution, from email resolution, or is the single commit invocation. -/
theorem handle_trace_sub (w : World) (msg : String) (c : Option String) :
    ∀ cl ∈ (handleCallTool w "commit_staged" (mkArgs msg c)).2,
      cl ∈ (resolveName w (effectiveCwd c)).2 ∨
      cl ∈ (resolveEmail w (effectiveCwd c)).2 ∨
      isCommitCall cl = true := by
  intro cl hcl
  cases hn : (resolveName w (effectiveCwd c)).1 with
  | error m =>
    rw [handle_name_error w msg c m hn] at hcl
    exact Or.inl hcl
  | ok nm =>
    cases he : (resolveEmail w (effectiveCwd c)).1 with
    | error m =>
      rw [handle_email_error w msg c nm m hn he] at hcl
      rcases List.mem_append.mp hcl with h | h
      · exact Or.inl h
      · exact Or.inr (Or.inl h)
    | ok em =>
      rw [handle_commit w msg c nm em hn he] at hcl
      have hcl2 : cl ∈ (resolveName w (effectiveCwd c)).2 ++ (resolveEmail w (effectiveCwd c)).2 ++
          [(⟨"git", ["commit", "-m", msg, "--author=" ++ (nm ++ " (aider)" ++ " <" ++ em ++ ">")],
            effectiveCwd c⟩ : Call)] := by
        revert hcl
        cases w.exec ["commit", "-m", msg, "--author=" ++ (nm ++ " (aider)" ++ " <" ++ em ++ ">")]
            (effectiveCwd c) with
        | ok res => exact fun hcl => hcl
        | error err =>
          by_cases hcond : (includesSub (errObjMessage err "Unknown error during git commit.")
              "nothing to commit, working tree clean" ||
            includesSub (errObjMessage err "Unknown error during git commit.")
              "no changes added to commit") = true
          · simp only [hcond]; exact fun hcl => hcl
          · simp only [Bool.not_eq_true] at hcond
            simp only [hcond]; exact fun hcl => hcl
      rcases List.mem_append.mp hcl2 with h | h
      · rcases List.mem_append.mp h with h2 | h2
        · exact Or.inl h2
        · exact Or.inr (Or.inl h2)
      · rcases List.mem_singleton.mp h with rfl
        exact Or.inr (Or.inr rfl)

/-- Counterexample for C3: at `wC3` name resolution fails, and the email
config query is never invoked (the whole trace is the single name query):
a failure in name resolution does short-circuit email resolution. -/
theorem C3_counterexample :
    (resolveName wC3 none).1 = Except.error
      ("Failed to get git user.name: fatal: unable to read config. Please ensure git user.name is configured or set the GIT_COMMITTER_NAME environment variable.") ∧
    (handleCallTool wC3 "commit_staged" (mkArgs "fix bug" none)).2 =
      [⟨"git", ["config", "user.name"], none⟩] := by
  exact ⟨rfl, rfl⟩

/-- C3 (amended): identity resolution is sequential, name first.  A failure
in email resolution cannot affect name resolution (which has already
completed), but a failure in name resolution aborts the request before email
resolution is attempted — its trace contains no email config query — and
either failure aborts before any commit is attempted. -/
theorem C3_sequential_resolution (w : World) (msg : String) (c : Option String) :
    (∀ m, (resolveName w (effectiveCwd c)).1 = Except.error m →
      handleCallTool w "commit_staged" (mkArgs msg c) =
        (HandlerOutput.ok ⟨m, some true⟩, (resolveName w (effectiveCwd c)).2) ∧
      ∀ cl ∈ (resolveName w (effectiveCwd c)).2,
        cl.args ≠ ["config", "user.email"] ∧ isCommitCall cl = false) ∧
    (∀ nm m, (resolveName w (effectiveCwd c)).1 = Except.ok nm →
      (resolveEmail w (effectiveCwd c)).1 = Except.error m →
      handleCallTool w "commit_staged" (mkArgs msg c) =
        (HandlerOutput.ok ⟨m, some true⟩,
         (resolveName w (effectiveCwd c)).2 ++ (resolveEmail w (effectiveCwd c)).2) ∧
      ∀ cl ∈ (resolveName w (effectiveCwd c)).2 ++ (resolveEmail w (effectiveCwd c)).2,
        isCommitCall cl = false) := by
  constructor
  · intro m hm
    refine ⟨handle_name_error w msg c m hm, ?_⟩
    rw [resolveName_snd]
    split
    · intro cl hcl; exact absurd hcl (List.not_mem_nil cl)
    · intro cl hcl
      rcases List.mem_singleton.mp hcl with rfl
      refine ⟨?_, rfl⟩
      show ["config", "user.name"] ≠ ["config", "user.email"]
      decide
  · intro nm m hn he
    refine ⟨handle_email_error w msg c nm m hn he, ?_⟩
    intro cl hcl
    rcases List.mem_append.mp hcl with h | h
    · rw [resolveName_snd] at h
      revert h; split
      · intro h; exact absurd h (List.not_mem_nil cl)
      · intro h; rcases List.mem_singleton.mp h with rfl; rfl
    · rw [resolveEmail_snd] at h
      revert h; split
      · intro h; exact absurd h (List.not_mem_nil cl)
      · intro h; rcases List.mem_singleton.mp h with rfl; rfl

/-- Witness theorem for the amended C3, instantiated at `wC3`. -/
theorem C3_witness :
    handleCallTool wC3 "commit_staged" (mkArgs "fix bug" none) =
      (HandlerOutput.ok ⟨"Failed to get git user.name: fatal: unable to read config. Please ensure git user.name is configured or set the GIT_COMMITTER_NAME environment variable.",
        some true⟩,
       [⟨"git", ["config", "user.name"], none⟩]) := by
  exact ((C3_sequential_resolution wC3 "fix bug" none).1
    "Failed to get git user.name: fatal: unable to read config. Please ensure git user.name is configured or set the GIT_COMMITTER_NAME environment variable."
    rfl).1

/-- Counterexample for C4: at `wC4` the outcome is Success, but the returned
response's isError field is absent (the success response object omits it),
not present with value false. -/
theorem C4_counterexample :
    (handleCallTool wC4 "commit_staged" (mkArgs "msg" none)).1 =
      HandlerOutput.ok ⟨"Commit successful:\ndone\n", none⟩ ∧
    outIsError (handleCallTool wC4 "commit_staged" (mkArgs "msg" none)).1 ≠ some (some false) := by
  refine ⟨rfl, ?_⟩
  intro h
  have h2 : (some (none : Option Bool)) = some (some false) := h
  simp at h2

/-- C4 (amended): for every response the handler returns, the isError field
is absent — omitted from the response object, hence falsy to the protocol —
when the outcome is Success, false when the outcome is Skipped, and true
when the outcome is Failed, including identity-resolution failures. -/
theorem C4_isError_classification (w : World) (msg : String) (c : Option String) :
    (∀ m, (resolveName w (effectiveCwd c)).1 = Except.error m →
      outIsError (handleCallTool w "commit_staged" (mkArgs msg c)).1 = some (some true)) ∧
    (∀ nm m, (resolveName w (effectiveCwd c)).1 = Except.ok nm →
      (resolveEmail w (effectiveCwd c)).1 = Except.error m →
      outIsError (handleCallTool w "commit_staged" (mkArgs msg c)).1 = some (some true)) ∧
    (∀ nm em res, (resolveName w (effectiveCwd c)).1 = Except.ok nm →
      (resolveEmail w (effectiveCwd c)).1 = Except.ok em →
      w.exec ["commit", "-m", msg, "--author=" ++ (nm ++ " (aider)" ++ " <" ++ em ++ ">")]
        (effectiveCwd c) = Except.ok res →
      outIsError (handleCallTool w "commit_staged" (mkArgs msg c)).1 = some none) ∧
    (∀ nm em e, (resolveName w (effectiveCwd c)).1 = Except.ok nm →
      (resolveEmail w (effectiveCwd c)).1 = Except.ok em →
      w.exec ["commit", "-m", msg, "--author=" ++ (nm ++ " (aider)" ++ " <" ++ em ++ ">")]
        (effectiveCwd c) = Except.error e →
      ((includesSub (errObjMessage e "Unknown error during git commit.")
            "nothing to commit, working tree clean" ||
          includesSub (errObjMessage e "Unknown error during git commit.")
            "no changes added to commit") = true →
        outIsError (handleCallTool w "commit_staged" (mkArgs msg c)).1 = some (some false)) ∧
      ((includesSub (errObjMessage e "Unknown error during git commit.")
            "nothing to commit, working tree clean" ||
          includesSub (errObjMessage e "Unknown error during git commit.")
            "no changes added to commit") = false →
        outIsError (handleCallTool w "commit_staged" (mkArgs msg c)).1 = some (some true))) := by
  refine ⟨fun m hm => ?_, fun nm m hn he => ?_, fun nm em res hn he hx => ?_,
    fun nm em e hn he hx => ⟨fun hcond => ?_, fun hcond => ?_⟩⟩
  · rw [handle_name_error w msg c m hm]; rfl
  · rw [handle_email_error w msg c nm m hn he]; rfl
  · rw [handle_commit w msg c nm em hn he]; simp only [hx]; rfl
  · rw [handle_commit w msg c nm em hn he]; simp only [hx, hcond]; rfl
  · rw [handle_commit w msg c nm em hn he]; simp only [hx, hcond]; rfl

/-- Witness theorem for the amended C4: the Success conjunct at `wC4`. -/
theorem C4_witness :
    outIsError (handleCallTool wC4 "commit_staged" (mkArgs "msg" none)).1 = some none := by
  exact (C4_isError_classification wC4 "msg" none).2.2.1 "Ada" "ada@x.io" ⟨"done", ""⟩ rfl rfl rfl

/-- A falsy name override together with a bad name config query makes name
resolution fail. -/
theorem resolveName_bad (w : World) (ecwd : Option String)
    (h1 : jsTruthy w.envName = false)
    (h2 : queryBad (w.exec ["config", "user.name"] ecwd) = true) :
    ∃ m, (resolveName w ecwd).1 = Except.error m := by
  unfold resolveName
  split
  · rename_i hcond
    rw [h1] at hcond
    exact absurd hcond (by simp)
  · cases hx : w.exec ["config", "user.name"] ecwd with
    | ok res =>
      have h3 : jsTrim res.stdout = "" := by
        rw [hx] at h2
        simp only [queryBad] at h2
        exact of_decide_eq_true h2
      simp only [h3]
      exact ⟨_, rfl⟩
    | error e =>
      exact ⟨_, rfl⟩

/-- A falsy email override together with a bad email config query makes
email resolution fail. -/
theorem resolveEmail_bad (w : World) (ecwd : Option String)
    (h1 : jsTruthy w.envEmail = false)
    (h2 : queryBad (w.exec ["config", "user.email"] ecwd) = true) :
    ∃ m, (resolveEmail w ecwd).1 = Except.error m := by
  unfold resolveEmail
  split
  · rename_i hcond
    rw [h1] at hcond
    exact absurd hcond (by simp)
  · cases hx : w.exec ["config", "user.email"] ecwd with
    | ok res =>
      have h3 : jsTrim res.stdout = "" := by
        rw [hx] at h2
        simp only [queryBad] at h2
        exact of_decide_eq_true h2
      simp only [h3]
      exact ⟨_, rfl⟩
    | error e =>
      exact ⟨_, rfl⟩

/-- Name resolution performs no commit invocation. -/
theorem resolveName_filter (w : World) (ecwd : Option String) :
    List.filter isCommitCall (resolveName w ecwd).2 = [] := by
  rw [resolveName_snd]
  split <;> rfl

/-- Email resolution performs no commit invocation. -/
theorem resolveEmail_filter (w : World) (ecwd : Option String) :
    List.filter isCommitCall (resolveEmail w ecwd).2 = [] := by
  rw [resolveEmail_snd]
  split <;> rfl

/-- C5: when the environment override for the name (resp. email) field is
absent or empty and the corresponding external config query fails or returns
a string that is empty after trimming, the outcome is Failed (isError true)
and the external commit invocation is never attempted: the trace contains
zero commit invocations. -/
theorem C5_resolution_failure_no_commit (w : World) (msg : String) (c : Option String) :
    (jsTruthy w.envName = false →
      queryBad (w.exec ["config", "user.name"] (effectiveCwd c)) = true →
      outIsError (handleCallTool w "commit_staged" (mkArgs msg c)).1 = some (some true) ∧
      List.filter isCommitCall (handleCallTool w "commit_staged" (mkArgs msg c)).2 = []) ∧
    (jsTruthy w.envEmail = false →
      queryBad (w.exec ["config", "user.email"] (effectiveCwd c)) = true →
      outIsError (handleCallTool w "commit_staged" (mkArgs msg c)).1 = some (some true) ∧
      List.filter isCommitCall (handleCallTool w "commit_staged" (mkArgs msg c)).2 = []) := by
  constructor
  · intro h1 h2
    obtain ⟨m, hm⟩ := resolveName_bad w (effectiveCwd c) h1 h2
    rw [handle_name_error w msg c m hm]
    exact ⟨rfl, resolveName_filter w (effectiveCwd c)⟩
  · intro h1 h2
    cases hn : (resolveName w (effectiveCwd c)).1 with
    | error m =>
      rw [handle_name_error w msg c m hn]
      exact ⟨rfl, resolveName_filter w (effectiveCwd c)⟩
    | ok nm =>
      obtain ⟨m, hm⟩ := resolveEmail_bad w (effectiveCwd c) h1 h2
      rw [handle_email_error w msg c nm m hn hm]
      refine ⟨rfl, ?_⟩
      show List.filter isCommitCall
        ((resolveName w (effectiveCwd c)).2 ++ (resolveEmail w (effectiveCwd c)).2) = []
      rw [List.filter_append, resolveName_filter, resolveEmail_filter]
      rfl

/-- Witness theorem for C5. -/
theorem C5_witness :
    outIsError (handleCallTool wC5 "commit_staged" (mkArgs "m" none)).1 = some (some true) ∧
    List.filter isCommitCall (handleCallTool wC5 "commit_staged" (mkArgs "m" none)).2 = [] :=
  (C5_resolution_failure_no_commit wC5 "m" none).2 rfl rfl

/-- C6: when GIT_COMMITTER_NAME is set to a non-empty value, the external
config query for user.name is never invoked anywhere in the request and the
resolved name is that environment value, with no external calls made by name
resolution; symmetrically for GIT_COMMITTER_EMAIL and user.email. -/
theorem C6_env_override_short_circuit (w : World) (msg : String) (c : Option String) :
    (∀ s, w.envName = some s → s ≠ "" →
      resolveName w (effectiveCwd c) = (Except.ok s, []) ∧
      ∀ cl ∈ (handleCallTool w "commit_staged" (mkArgs msg c)).2,
        cl.args ≠ ["config", "user.name"]) ∧
    (∀ s, w.envEmail = some s → s ≠ "" →
      resolveEmail w (effectiveCwd c) = (Except.ok s, []) ∧
      ∀ cl ∈ (handleCallTool w "commit_staged" (mkArgs msg c)).2,
        cl.args ≠ ["config", "user.email"]) := by
  constructor
  · intro s hs hne
    have htr : jsTruthy w.envName = true := by
      rw [hs]
      simp [jsTruthy, hne]
    have hres : resolveName w (effectiveCwd c) = (Except.ok s, []) := by
      unfold resolveName
      rw [htr, hs]
      rfl
    refine ⟨hres, ?_⟩
    intro cl hcl
    rcases handle_trace_sub w msg c cl hcl with h | h | h
    · rw [hres] at h
      exact absurd h (List.not_mem_nil cl)
    · rw [resolveEmail_snd] at h
      revert h
      split
      · intro h; exact absurd h (List.not_mem_nil cl)
      · intro h
        rcases List.mem_singleton.mp h with rfl
        show ["config", "user.email"] ≠ ["config", "user.name"]
        decide
    · intro hcontra
      simp [isCommitCall, hcontra] at h
  · intro s hs hne
    have htr : jsTruthy w.envEmail = true := by
      rw [hs]
      simp [jsTruthy, hne]
    have hres : resolveEmail w (effectiveCwd c) = (Except.ok s, []) := by
      unfold resolveEmail
      rw [htr, hs]
      rfl
    refine ⟨hres, ?_⟩
    intro cl hcl
    rcases handle_trace_sub w msg c cl hcl with h | h | h
    · rw [resolveName_snd] at h
      revert h
      split
      · intro h; exact absurd h (List.not_mem_nil cl)
      · intro h
        rcases List.mem_singleton.mp h with rfl
        show ["config", "user.name"] ≠ ["config", "user.email"]
        decide
    · rw [hres] at h
      exact absurd h (List.not_mem_nil cl)
    · intro hcontra
      simp [isCommitCall, hcontra] at h

/-- Witness theorem for C6. -/
theorem C6_witness :
    resolveName wC6 (effectiveCwd none) = (Except.ok "Eve", []) ∧
    resolveEmail wC6 (effectiveCwd none) = (Except.ok "eve@x.io", []) :=
  ⟨((C6_env_override_short_circuit wC6 "m" none).1 "Eve" rfl (by decide)).1,
   ((C6_env_override_short_circuit wC6 "m" none).2 "eve@x.io" rfl (by decide)).1⟩

/-- C7 (amended): every commit_staged request whose message field is absent
or not a string is rejected with a thrown InvalidParams McpError before any
identity resolution or external invocation occurs (the trace is empty), and
never reaches the Success, Skipped or Failed outcome classification; an
empty string message, however, passes validation and proceeds. -/
theorem C7_invalid_message_rejected (w : World) (args : Option RawArgs)
    (h : messageAbsentOrNonString args = true) :
    handleCallTool w "commit_staged" args =
      (HandlerOutput.thrown ErrorCode.InvalidParams invalidArgsMsg, []) := by
  have hv : isValidCommitArgs args = false := by
    cases args with
    | none => rfl
    | some a =>
      rcases a with ⟨ms, cw⟩
      cases ms with
      | none => rfl
      | some v =>
        simp only [messageAbsentOrNonString] at h
        have hb : isStringVal v = false := by
          cases hsv : isStringVal v
          · rfl
          · rw [hsv] at h
            exact absurd h (by simp)
        simp only [isValidCommitArgs, hb, Bool.false_and]
  unfold handleCallTool
  rw [hv]
  rfl

/-- Counterexample for C7: the empty-string message passes validation, is
not rejected as a caller input error, reaches the outcome classification
(Success here) and the commit is invoked with the empty message. -/
theorem C7_counterexample :
    isValidCommitArgs (mkArgs "" none) = true ∧
    (handleCallTool wC7 "commit_staged" (mkArgs "" none)).1 =
      HandlerOutput.ok ⟨"Commit successful:\ncommitted\n", none⟩ ∧
    (handleCallTool wC7 "commit_staged" (mkArgs "" none)).2 =
      [⟨"git", ["commit", "-m", "", "--author=Bob (aider) <bob@x.io>"], none⟩] :=
  ⟨rfl, rfl, rfl⟩

/-- Witness theorem for the amended C7: a numeric message is rejected. -/
theorem C7_witness :
    handleCallTool wC7 "commit_staged" (some ⟨some (ArgVal.vnum 42), none⟩) =
      (HandlerOutput.thrown ErrorCode.InvalidParams invalidArgsMsg, []) :=
  C7_invalid_message_rejected wC7 (some ⟨some (ArgVal.vnum 42), none⟩) rfl

/-- The code's first-truthy extraction coincides with the spec-side priority
chain. -/
theorem errObjMessage_eq_specDiagnostic (e : ExecaError) :
    errObjMessage e "Unknown error during git commit." = specDiagnostic e := by
  rcases e with ⟨s1, s2, s3, s4⟩
  cases s1 <;> cases s2 <;> cases s3 <;> cases s4 <;>
    simp only [errObjMessage, jsOr, specDiagnostic, nonEmptyField] <;>
    repeat (first | rfl | (split <;> try rfl))

/-- C8: for every commit-invocation failure classified as Failed, the
diagnostic text is extracted from the error object in priority order:
captured stderr if non-empty, else captured stdout if non-empty, else the
short summary, else the error message, else the generic fallback. -/
theorem C8_failed_diagnostic_priority (w : World) (msg : String) (c : Option String)
    (nm em : String) (e : ExecaError)
    (hn : (resolveName w (effectiveCwd c)).1 = Except.ok nm)
    (he : (resolveEmail w (effectiveCwd c)).1 = Except.ok em)
    (hc : w.exec ["commit", "-m", msg, "--author=" ++ (nm ++ " (aider)" ++ " <" ++ em ++ ">")]
        (effectiveCwd c) = Except.error e)
    (hother : (includesSub (errObjMessage e "Unknown error during git commit.")
          "nothing to commit, working tree clean" ||
        includesSub (errObjMessage e "Unknown error during git commit.")
          "no changes added to commit") = false) :
    (handleCallTool w "commit_staged" (mkArgs msg c)).1 =
      HandlerOutput.ok ⟨"Git commit failed: " ++ specDiagnostic e, some true⟩ := by
  rw [handle_commit w msg c nm em hn he]
  simp only [hc, hother]
  rw [← errObjMessage_eq_specDiagnostic]
  rfl

/-- Witness theorem for C8. -/
theorem C8_witness :
    (handleCallTool wC8 "commit_staged" (mkArgs "m" none)).1 =
      HandlerOutput.ok ⟨"Git commit failed: Command failed with exit code 128", some true⟩ :=
  C8_failed_diagnostic_priority wC8 "m" none "Ada" "ada@x.io"
    ⟨none, some "", some "Command failed with exit code 128",
      some "Command failed with exit code 128: git commit"⟩ rfl rfl rfl (by rfl)

/-- C9: identity resolution is deterministic in the observable state: two
runs over worlds that agree on both environment variables and on the results
of the two config queries in the same working directory resolve to the same
identity; in particular resolving twice in an unchanged world yields the
same pair, with no hidden mutation. -/
theorem C9_identity_deterministic (w₁ w₂ : World) (ecwd : Option String)
    (hn : w₁.envName = w₂.envName)
    (he : w₁.envEmail = w₂.envEmail)
    (hqn : w₁.exec ["config", "user.name"] ecwd = w₂.exec ["config", "user.name"] ecwd)
    (hqe : w₁.exec ["config", "user.email"] ecwd = w₂.exec ["config", "user.email"] ecwd) :
    resolveIdentity w₁ ecwd = resolveIdentity w₂ ecwd := by
  unfold resolveIdentity
  rw [resolveName_congr w₁ w₂ ecwd hn hqn, resolveEmail_congr w₁ w₂ ecwd he hqe]

/-- Witness theorem for C9. -/
theorem C9_witness :
    resolveIdentity wC9a none = resolveIdentity wC9b none ∧
    resolveIdentity wC9a none = Except.ok ("Ada", "ada@x.io") :=
  ⟨C9_identity_deterministic wC9a wC9b none rfl rfl rfl rfl, rfl⟩

/-- C10: environment-override values are used verbatim, without trimming —
the resolved field equals the override exactly, including surrounding or
whitespace-only content — whereas values obtained from the external config
query are trimmed of surrounding whitespace before use. -/
theorem C10_env_verbatim_config_trimmed (w : World) (c : Option String) :
    (∀ s, w.envName = some s → s ≠ "" →
      (resolveName w (effectiveCwd c)).1 = Except.ok s) ∧
    (∀ res, jsTruthy w.envName = false →
      w.exec ["config", "user.name"] (effectiveCwd c) = Except.ok res →
      jsTrim res.stdout ≠ "" →
      (resolveName w (effectiveCwd c)).1 = Except.ok (jsTrim res.stdout)) ∧
    (∀ s, w.envEmail = some s → s ≠ "" →
      (resolveEmail w (effectiveCwd c)).1 = Except.ok s) ∧
    (∀ res, jsTruthy w.envEmail = false →
      w.exec ["config", "user.email"] (effectiveCwd c) = Except.ok res →
      jsTrim res.stdout ≠ "" →
      (resolveEmail w (effectiveCwd c)).1 = Except.ok (jsTrim res.stdout)) := by
  refine ⟨fun s hs hne => ?_, fun res h1 hx hne => ?_, fun s hs hne => ?_,
    fun res h1 hx hne => ?_⟩
  · have htr : jsTruthy w.envName = true := by
      rw [hs]
      simp [jsTruthy, hne]
    unfold resolveName
    rw [htr, hs]
    rfl
  · unfold resolveName
    rw [h1]
    simp only [Bool.false_eq_true, if_false, hx]
    rw [if_neg hne]
  · have htr : jsTruthy w.envEmail = true := by
      rw [hs]
      simp [jsTruthy, hne]
    unfold resolveEmail
    rw [htr, hs]
    rfl
  · unfold resolveEmail
    rw [h1]
    simp only [Bool.false_eq_true, if_false, hx]
    rw [if_neg hne]

/-- Witness theorem for C10: the override keeps its whitespace verbatim, the
config value is trimmed. -/
theorem C10_witness :
    (resolveName wC10 (effectiveCwd none)).1 = Except.ok "  Ada  " ∧
    (resolveEmail wC10 (effectiveCwd none)).1 = Except.ok "ada@x.io" :=
  ⟨(C10_env_verbatim_config_trimmed wC10 none).1 "  Ada  " rfl (by decide),
   (C10_env_verbatim_config_trimmed wC10 none).2.2.2 ⟨"\tada@x.io \n", ""⟩ rfl rfl (by decide)⟩

end GitCommitAider
